import Mathlib

/-!
Verification development for the YT-Automation backend (`server.py`).

The definitions below are a shallow embedding of the job-orchestration code:
the in-memory job store, the two background workers (local generator and
KAGGLE_LIVE remote forwarder — `server.py` contains two successive
definitions of the latter, both embedded here), the duration-ingestion logic
of `api_generate`, and the status-query endpoint `api_job`.  External
effects (the subprocess run, the HTTP round-trip, JSON parsing, the
filesystem) are passed in as explicit outcome values or oracle functions;
everything the Python code computes from those outcomes is reproduced.
-/

namespace YTAutomation

/-- The Job Record: the `meta` dict built by `job_init` in server.py, with
its exact fields (timestamps as abstract naturals). -/
structure JobRecord where
  jobId : String
  prompt : String
  mode : String
  duration : Int
  seedUrl : Option String
  engine : String
  status : String
  progress : Nat
  logs : List String
  outputUrl : Option String
  outputPath : Option String
  createdAt : Nat
deriving Repr, DecidableEq

/-- `job_init`: the initial metadata for a new job (status queued,
progress 0, logs ["queued"], no outputs). -/
def job_init (job_id prompt mode : String) (duration : Int)
    (seed_url : Option String) (engine : String) (createdAt : Nat) : JobRecord :=
  ⟨job_id, prompt, mode, duration, seed_url, engine,
   "queued", 0, ["queued"], none, none, createdAt⟩

/-- One `job_update(job_id, ...)` call made by a worker.  Every such call in
server.py sets `status` and `progress`; the two output fields are only set by
the success updates (`some v` = field set to `v`, `none` = field untouched). -/
structure JobUpd where
  status : String
  progress : Nat
  outputPath : Option (Option String)
  outputUrl : Option (Option String)
deriving Repr, DecidableEq

/-- Apply one update to a record (the `meta.update(fields)` merge). -/
def applyUpd (r : JobRecord) (u : JobUpd) : JobRecord :=
  { r with
    status := u.status
    progress := u.progress
    outputPath := u.outputPath.getD r.outputPath
    outputUrl := u.outputUrl.getD r.outputUrl }

/-- Apply a worker's updates in order. -/
def applyUpds (r : JobRecord) (us : List JobUpd) : JobRecord :=
  us.foldl applyUpd r

/-- All record states observed while a worker runs: the starting record and
the state after each `job_update` call. -/
def statesOf (r : JobRecord) (us : List JobUpd) : List JobRecord :=
  us.scanl applyUpd r

/-- The sequence of `status` values along those states. -/
def statusTrace (r : JobRecord) (us : List JobUpd) : List String :=
  (statesOf r us).map (fun st => st.status)

/-- The error update `job_update(job_id, status="error", progress=0)`. -/
def errUpd : JobUpd := ⟨"error", 0, none, none⟩

/-! ## Job store (`jobs` dict with `job_update` / `job_log` / `api_job`) -/

/-- The in-memory `jobs` mapping, as an association list. -/
abbrev Store := List (String × JobRecord)

/-- `jobs.get(job_id)`. -/
def storeGet (s : Store) (id : String) : Option JobRecord :=
  (s.find? (fun p => p.1 == id)).map (fun p => p.2)

/-- `job_update` at store level: merge fields into the record if the id is
known, otherwise return (no-op).  The merge itself is abstracted as a record
function, as in `meta.update(fields)`. -/
def job_update (s : Store) (id : String) (f : JobRecord → JobRecord) : Store :=
  match storeGet s id with
  | none => s
  | some _ => s.map (fun p => if p.1 == id then (p.1, f p.2) else p)

/-- `job_log`: append `"[ts] message"` to the record's logs if the id is
known, otherwise return (no-op). -/
def job_log (s : Store) (id : String) (ts message : String) : Store :=
  match storeGet s id with
  | none => s
  | some _ =>
    s.map (fun p =>
      if p.1 == id then (p.1, { p.2 with logs := p.2.logs ++ ["[" ++ ts ++ "] " ++ message] })
      else p)

/-- The fields `api_job` returns for a known job: `dict(meta)` with
`outputPath` popped. -/
structure StatusView where
  jobId : String
  prompt : String
  mode : String
  duration : Int
  seedUrl : Option String
  engine : String
  status : String
  progress : Nat
  logs : List String
  outputUrl : Option String
  createdAt : Nat
deriving Repr, DecidableEq

/-- `resp = dict(meta); resp.pop("outputPath", None)`. -/
def toStatusView (r : JobRecord) : StatusView :=
  ⟨r.jobId, r.prompt, r.mode, r.duration, r.seedUrl, r.engine,
   r.status, r.progress, r.logs, r.outputUrl, r.createdAt⟩

/-- Response of the `/api/job/<job_id>` route. -/
inductive ApiJobResponse where
  | notfound (jobId : String) (status : String) (httpCode : Nat)
  | found (view : StatusView) (httpCode : Nat)
deriving Repr, DecidableEq

/-- `api_job`: unknown id gives the 404 not-found shape, otherwise the
record snapshot minus `outputPath`. -/
def api_job (s : Store) (job_id : String) : ApiJobResponse :=
  match storeGet s job_id with
  | none => ApiJobResponse.notfound job_id "notfound" 404
  | some meta => ApiJobResponse.found (toStatusView meta) 200

/-- Overwrite a record's `outputPath` field, keeping everything else. -/
def setOutputPath (r : JobRecord) (p : Option String) : JobRecord :=
  { r with outputPath := p }

/-! ## Local worker (`generate_call_local`) -/

/-- Outcome of `subprocess.run` on the generator command: completion with a
return code, the stripped stdout split into lines, and stderr; the
60-minute `TimeoutExpired`; or any other exception. -/
inductive LocalProcResult where
  | completed (returncode : Int) (stdoutLines : List String) (stderr : String)
  | timedOut
  | exn
deriving Repr, DecidableEq

/-- `Path(p).is_absolute()` on POSIX: the path starts with `/`. -/
def pyIsAbsolute (p : String) : Bool :=
  match p.data with
  | [] => false
  | c :: _ => c == '/'

/-- `WORKDIR / p` path join. -/
def joinPath (dir p : String) : String := dir ++ "/" ++ p

/-- Resolution of the generator's reported path: kept if absolute,
otherwise joined under the work directory. -/
def resolvePath (workdir p : String) : String :=
  if pyIsAbsolute p then p else joinPath workdir p

/-- `Path(p).name`: the characters after the last `/` (the whole path when
there is no separator). -/
def baseName (p : String) : String :=
  ⟨p.data.foldl (fun acc c => if c = '/' then [] else acc ++ [c]) []⟩

/-- `generate_call_local`: the local worker's `job_update` calls (in order)
and its log lines (message texts, without the timestamp prefix).
`parseOutput` is the oracle for `json.loads(line).get("output")`:
`none` = `json.loads` raised, `some none` = no usable `output` field,
`some (some p)` = the field held the string `p`.  `fexists` is the
filesystem-existence oracle. -/
def generate_call_local (parseOutput : String → Option (Option String))
    (fexists : String → Bool) (workdir job_id : String)
    (res : LocalProcResult) : List JobUpd × List String :=
  let startLogs := ["starting local generation"]
  let running : JobUpd := ⟨"running", 5, none, none⟩
  match res with
  | LocalProcResult.timedOut =>
    ([running, errUpd], startLogs ++ ["generation timed out"])
  | LocalProcResult.exn =>
    ([running, errUpd], startLogs ++ ["exception"])
  | LocalProcResult.completed rc lines stderr =>
    let echo := if lines.isEmpty then [] else "generator stdout:" :: lines
    if rc ≠ 0 then
      ([running, errUpd],
       startLogs ++ echo ++
         ["generator failed: rc=" ++ toString rc ++ ", stderr=" ++ stderr.take 500])
    else
      match lines.getLast? with
      | none =>
        ([running, errUpd],
         startLogs ++ echo ++
           ["parse error on last line", "no output path returned by generator"])
      | some last =>
        match parseOutput last with
        | none =>
          ([running, errUpd],
           startLogs ++ echo ++
             ["parse error on last line", "no output path returned by generator"])
        | some none =>
          ([running, errUpd],
           startLogs ++ echo ++ ["no output path returned by generator"])
        | some (some p) =>
          if p = "" then
            ([running, errUpd],
             startLogs ++ echo ++ ["no output path returned by generator"])
          else
            let resolved := resolvePath workdir p
            if fexists resolved then
              ([running,
                ⟨"done", 100, some (some resolved),
                 some (some ("/api/output/" ++ job_id))⟩],
               startLogs ++ echo ++ ["finished: " ++ baseName resolved])
            else
              ([running, errUpd],
               startLogs ++ echo ++ ["output file missing: " ++ resolved])

/-- The local worker's final record, starting from record `r`. -/
def runLocal (parseOutput : String → Option (Option String))
    (fexists : String → Bool) (workdir job_id : String)
    (res : LocalProcResult) (r : JobRecord) : JobRecord :=
  applyUpds r (generate_call_local parseOutput fexists workdir job_id res).1

/-- The local worker's log lines. -/
def localLogs (parseOutput : String → Option (Option String))
    (fexists : String → Bool) (workdir job_id : String)
    (res : LocalProcResult) : List String :=
  (generate_call_local parseOutput fexists workdir job_id res).2

/-! ## Remote worker (`generate_call_kaggle_live`, both definitions) -/

/-- What the Python code reads out of a JSON response body:
the truthiness of `data.get("ok")`, and the `status` / `error` fields. -/
structure RemoteBody where
  okTruthy : Bool
  statusField : Option String
  errorField : Option String
deriving Repr, DecidableEq

/-- Outcome of `requests.post` to the Colab endpoint: a response with an
HTTP status code and a body (`none` when `resp.json()` raises, i.e. the
body is not JSON), a `requests.Timeout`, or another exception. -/
inductive ColabResult where
  | response (statusCode : Nat) (body : Option RemoteBody)
  | timeout
  | exn
deriving Repr, DecidableEq

/-- The FIRST (shadowed) definition of `generate_call_kaggle_live`
(server.py lines 185–236): base check before the running update,
progress 10, rejects non-200 status codes, and hardcodes status
`done` on success. -/
def generate_call_kaggle_live_first (base : Option String) (job_id : String)
    (res : ColabResult) : List JobUpd × List String :=
  match base with
  | none => ([errUpd], ["KAGGLE_LIVE_API_BASE not set on server."])
  | some b =>
    let running : JobUpd := ⟨"running", 10, none, none⟩
    let logs0 := ["forwarding to Colab SVD", "POST to Colab api generate"]
    match res with
    | ColabResult.timeout =>
      ([running, errUpd], logs0 ++ ["KAGGLE_LIVE exception"])
    | ColabResult.exn =>
      ([running, errUpd], logs0 ++ ["KAGGLE_LIVE exception"])
    | ColabResult.response code bodyOpt =>
      let logs1 := logs0 ++ ["Colab response: " ++ toString code]
      let okVal := (bodyOpt.map (fun d => d.okTruthy)).getD false
      if code ≠ 200 ∨ okVal = false then
        ([running, errUpd], logs1 ++ ["Colab error"])
      else
        let out_url := b ++ "/api/output/" ++ job_id
        ([running, ⟨"done", 100, some none, some (some out_url)⟩],
         logs1 ++ ["finished via Colab: " ++ out_url])

/-- The SECOND (effective) definition of `generate_call_kaggle_live`
(server.py lines 243–302): running update (progress 5) before the base
check, errors on a non-JSON body, ignores the HTTP status code, and takes
the final status from the response's own `status` field (default `done`). -/
def generate_call_kaggle_live (base : Option String) (job_id : String)
    (res : ColabResult) : List JobUpd × List String :=
  let startLogs := ["starting KAGGLE_LIVE (Colab) generation"]
  let running : JobUpd := ⟨"running", 5, none, none⟩
  match base with
  | none => ([running, errUpd], startLogs ++ ["KAGGLE_LIVE_API_BASE not configured"])
  | some b =>
    match res with
    | ColabResult.timeout =>
      ([running, errUpd], startLogs ++ ["KAGGLE_LIVE call timed out"])
    | ColabResult.exn =>
      ([running, errUpd], startLogs ++ ["KAGGLE_LIVE exception"])
    | ColabResult.response _code bodyOpt =>
      match bodyOpt with
      | none =>
        ([running, errUpd], startLogs ++ ["invalid JSON from KAGGLE_LIVE"])
      | some d =>
        if d.okTruthy = false then
          ([running, errUpd],
           startLogs ++ ["KAGGLE_LIVE response",
             "KAGGLE_LIVE reported error: " ++ (d.errorField.getD "None")])
        else
          let out_url := b ++ "/api/output/" ++ job_id
          ([running,
            ⟨d.statusField.getD "done", 100, some none, some (some out_url)⟩],
           startLogs ++ ["KAGGLE_LIVE response",
             "KAGGLE_LIVE finished. Output URL: " ++ out_url])

/-- Final record of the effective (second) remote worker. -/
def runKaggle (base : Option String) (job_id : String) (res : ColabResult)
    (r : JobRecord) : JobRecord :=
  applyUpds r (generate_call_kaggle_live base job_id res).1

/-- Final record of the shadowed (first) remote worker. -/
def runKaggleFirst (base : Option String) (job_id : String) (res : ColabResult)
    (r : JobRecord) : JobRecord :=
  applyUpds r (generate_call_kaggle_live_first base job_id res).1

/-! ## Dispatcher (`api_generate`) -/

/-- ASCII uppercasing of one character (`str.upper` on the engine flags,
which are ASCII). -/
def upperChar (c : Char) : Char :=
  if 97 ≤ c.toNat ∧ c.toNat ≤ 122 then Char.ofNat (c.toNat - 32) else c

/-- `s.upper()` for ASCII strings. -/
def pyUpper (s : String) : String := ⟨s.data.map upperChar⟩

/-- `data.get("engine", "LOCAL").upper()`. -/
def resolveEngineName (requested : Option String) : String :=
  pyUpper (requested.getD "LOCAL")

/-- The function name `api_generate` passes as the thread target:
`generate_call_kaggle_live` for engine `KAGGLE_LIVE`, the bare name
`generate_call` for every other engine. -/
def dispatchTargetName (engine : String) : String :=
  if engine = "KAGGLE_LIVE" then "generate_call_kaggle_live" else "generate_call"

/-- The module-level function names defined in server.py (after the second
`generate_call_kaggle_live` shadows the first). -/
def serverFunctionNames : List String :=
  ["job_init", "job_update", "job_log", "generate_call_local",
   "generate_call_kaggle_live", "root", "api_generate", "api_job", "api_output"]

/-- Whether dispatch targets the remote worker:
`engine == "KAGGLE_LIVE"` in `api_generate`. -/
def code_resolveRemote (requested : Option String) : Bool :=
  resolveEngineName requested == "KAGGLE_LIVE"

/-! ## Duration ingestion (`api_generate` lines 330–335) -/

/-- A Python value as it reaches `data.get("duration")`: absent/None,
a JSON integer, or a form/string value. -/
inductive PyVal where
  | pyNone
  | pyInt (n : Int)
  | pyStr (s : String)
deriving Repr, DecidableEq

/-- Python truthiness of such a value (`x or 15` keeps `x` iff truthy). -/
def pyTruthy : PyVal → Bool
  | PyVal.pyNone => false
  | PyVal.pyInt n => n != 0
  | PyVal.pyStr s => s != ""

/-- Whitespace as stripped by Python's `int()` around a numeric literal. -/
def isPySpace (c : Char) : Bool :=
  c == ' ' || c == '\t' || c == '\n' || c == '\r'

/-- Strip leading and trailing whitespace from a character list. -/
def trimChars (cs : List Char) : List Char :=
  ((cs.dropWhile isPySpace).reverse.dropWhile isPySpace).reverse

/-- `int(s)` on a string: optional surrounding whitespace, an optional
sign, then at least one digit; anything else raises. -/
def pyParseInt (s : String) : Option Int :=
  let t := trimChars s.data
  let signed : Bool × List Char :=
    match t with
    | '-' :: rest => (true, rest)
    | '+' :: rest => (false, rest)
    | _ => (false, t)
  let ds := signed.2
  if ds.isEmpty ∨ ¬ ds.all Char.isDigit then none
  else
    let n : Nat := ds.foldl (fun a c => a * 10 + (c.toNat - 48)) 0
    some (if signed.1 then -(n : Int) else (n : Int))

/-- `int(x)` on a Python value (`none` = raises). -/
def pyToInt : PyVal → Option Int
  | PyVal.pyNone => none
  | PyVal.pyInt n => some n
  | PyVal.pyStr s => pyParseInt s

/-- Duration ingestion: `try: duration = int(data.get("duration") or 15)
except: duration = 15` followed by `duration = max(1, min(duration, 60))`. -/
def ingestDuration (v : PyVal) : Int :=
  let picked := if pyTruthy v then v else PyVal.pyInt 15
  let d := (pyToInt picked).getD 15
  max 1 (min d 60)

/-! ## Invariants and status-transition discipline -/

/-- The status vocabulary documented in `job_init`:
`queued | running | done | error`. -/
def statusSet : List String := ["queued", "running", "done", "error"]

/-- Whether the record carries a non-empty output location
(a local path or a retrieval URL). -/
def outputLocationNonempty (r : JobRecord) : Bool :=
  (match r.outputPath with
   | some p => p != ""
   | none => false) ||
  (match r.outputUrl with
   | some u => u != ""
   | none => false)

/-- The spec's record invariant: done ⇒ progress 100 and a non-empty
output location; error ⇒ progress 0. -/
def recordInvariant (r : JobRecord) : Bool :=
  (!(r.status == "done") || (r.progress == 100 && outputLocationNonempty r)) &&
  (!(r.status == "error") || (r.progress == 0))

/-- The allowed status transitions:
queued → running and running → done / error. -/
def allowedStep (a b : String) : Bool :=
  (a == "queued" && b == "running") ||
  (a == "running" && (b == "done" || b == "error"))

/-- Every adjacent pair of the list is an allowed transition. -/
def chainOk : List String → Bool
  | [] => true
  | [_] => true
  | a :: b :: rest => allowedStep a b && chainOk (b :: rest)

/-- The remote response's own `status` field is absent or `done`
(the only values under which the stored status stays in the documented
vocabulary). -/
def remoteStatusBenign (res : ColabResult) : Prop :=
  match res with
  | ColabResult.response _ (some d) => d.statusField = none ∨ d.statusField = some "done"
  | _ => True

/-- A successful (`ok`-truthy) JSON response has HTTP status 200 and a
benign `status` field — the region on which the two
`generate_call_kaggle_live` definitions agree. -/
def remoteOkConsistent (res : ColabResult) : Prop :=
  match res with
  | ColabResult.response c (some d) =>
    d.okTruthy = true → (c = 200 ∧ (d.statusField = none ∨ d.statusField = some "done"))
  | _ => True

/-! ## Engine selection as the spec words it (for comparison with the code) -/

/-- Outcome of the health probe the spec describes. -/
structure ProbeOutcome where
  succeeded : Bool
  healthy : Bool
  gpu : Bool
deriving Repr, DecidableEq

/-- Engine resolution as worded by the spec (`resolve(requestedEngine)`,
§4.3), for comparison with the source: absent or `AUTO` consults a health
probe and picks the remote engine exactly when the probe succeeded and
reports healthy and GPU-capable; an explicit engine name is kept. -/
def spec_resolveRemote (requested : Option String) (probe : ProbeOutcome) : Bool :=
  match requested with
  | none => probe.succeeded && probe.healthy && probe.gpu
  | some e =>
    if pyUpper e = "AUTO" then probe.succeeded && probe.healthy && probe.gpu
    else pyUpper e == "KAGGLE_LIVE"

/-! ## Helper lemmas -/

/-- A string of positive length is not the empty string. -/
theorem ne_empty_of_length_pos (s : String) (h : 0 < s.length) : s ≠ "" := by
  intro he
  rw [he] at h
  simp [String.length] at h

/-- A concatenation whose left part is non-empty is non-empty. -/
theorem append_ne_empty_left (a b : String) (ha : a ≠ "") : a ++ b ≠ "" := by
  apply ne_empty_of_length_pos
  rw [String.length_append]
  have ha' : 0 < a.length := by
    by_contra hle
    push_neg at hle
    apply ha
    have : a.length = 0 := Nat.le_zero.mp hle
    cases a with
    | mk data =>
      cases data with
      | nil => rfl
      | cons c cs => simp [String.length] at this
  omega

/-- Appending on the left cannot erase a non-empty suffix. -/
theorem append_append_ne_empty (a b c : String) (hb : b ≠ "") :
    a ++ b ++ c ≠ "" := by
  apply ne_empty_of_length_pos
  rw [String.length_append, String.length_append]
  have hb' : 0 < b.length := by
    by_contra hle
    push_neg at hle
    apply hb
    have : b.length = 0 := Nat.le_zero.mp hle
    cases b with
    | mk data =>
      cases data with
      | nil => rfl
      | cons c cs => simp [String.length] at this
  omega


/-! ## Claims -/

/-- C2: the code is wrong where the claim is right.  For a submission whose
engine is absent (so it resolves to the default `LOCAL`), `api_generate`
passes the bare name `generate_call` as the worker-thread target, but no
function of that name is defined in server.py (the local worker is named
`generate_call_local`), so evaluating the name raises `NameError` inside the
request handler: an unhandled fault escapes the service boundary instead of
the job id being returned. -/
theorem C2_dispatch_target_undefined :
    resolveEngineName none = "LOCAL" ∧
    dispatchTargetName (resolveEngineName none) = "generate_call" ∧
    dispatchTargetName (resolveEngineName none) ∉ serverFunctionNames ∧
    "generate_call_local" ∈ serverFunctionNames := by
  refine ⟨rfl, rfl, by decide, by decide⟩

/-- C7 counterexample: a submitted duration of `0` (a falsy value) is
replaced by the default `15` by `data.get("duration") or 15` before the
clamp ever sees it, so it resolves to 15, not to the claimed clamp value 1. -/
theorem C7_counterexample :
    ingestDuration (PyVal.pyInt 0) = 15 ∧ ingestDuration (PyVal.pyInt 0) ≠ 1 := by
  decide

/-- C7 amended: durations are clamped into 1–60 rather than rejected
(`-5` ↦ 1, `500` ↦ 60, in-range values pass through, an unparseable value
falls back to the in-range default 15), except that a falsy input — the
number 0, the empty string, or an absent value — is replaced by the default
15 before clamping (the string "0" is truthy and still resolves to 1). -/
theorem C7_amended :
    ingestDuration (PyVal.pyInt (-5)) = 1 ∧
    ingestDuration (PyVal.pyInt 0) = 15 ∧
    ingestDuration (PyVal.pyInt 500) = 60 ∧
    ingestDuration (PyVal.pyStr "0") = 1 ∧
    ingestDuration PyVal.pyNone = 15 ∧
    ingestDuration (PyVal.pyStr "") = 15 ∧
    (∀ n : Int, 1 ≤ n → n ≤ 60 → ingestDuration (PyVal.pyInt n) = n) ∧
    (∀ s : String, pyParseInt s = none → ingestDuration (PyVal.pyStr s) = 15) := by
  refine ⟨by decide, by decide, by decide, by decide, by decide, by decide, ?_, ?_⟩
  · intro n h1 h60
    have hne : (n != 0) = true := by
      simp [bne_iff_ne]
      omega
    simp [ingestDuration, pyTruthy, pyToInt, hne]
    omega
  · intro s hparse
    by_cases hs : s = ""
    · subst hs
      decide
    · have ht : (s != "") = true := by simp [bne_iff_ne, hs]
      simp [ingestDuration, pyTruthy, pyToInt, ht, hparse]

/-- C7 amended, witness: in-range value 30 passes through unchanged and the
unparseable string "abc" falls back to 15. -/
theorem C7_amended_witness :
    ingestDuration (PyVal.pyInt 30) = 30 ∧ ingestDuration (PyVal.pyStr "abc") = 15 :=
  ⟨C7_amended.2.2.2.2.2.2.1 30 (by decide) (by decide),
   C7_amended.2.2.2.2.2.2.2 "abc" (by decide)⟩

/-- C3 counterexample: even when a health probe would report the remote
healthy and GPU-capable, a request with no engine field is routed to the
local branch — `api_generate` performs no probe at all, so resolution
cannot match the probe-based rule the claim states. -/
theorem C3_counterexample :
    spec_resolveRemote none ⟨true, true, true⟩ = true ∧
    code_resolveRemote none = false ∧
    spec_resolveRemote (some "AUTO") ⟨true, true, true⟩ = true ∧
    code_resolveRemote (some "AUTO") = false := by
  refine ⟨rfl, rfl, rfl, rfl⟩

/-- C3 amended: engine resolution never probes the remote endpoint; an
absent engine (and `AUTO`, like every value other than `KAGGLE_LIVE` after
uppercasing) resolves to the local branch unconditionally, and exactly the
requests whose uppercased engine equals `KAGGLE_LIVE` resolve to the
remote worker. -/
theorem C3_amended :
    code_resolveRemote none = false ∧
    code_resolveRemote (some "AUTO") = false ∧
    code_resolveRemote (some "kaggle_live") = true ∧
    (∀ e : Option String, code_resolveRemote e = true ↔ pyUpper (e.getD "LOCAL") = "KAGGLE_LIVE") := by
  refine ⟨rfl, rfl, rfl, ?_⟩
  intro e
  simp [code_resolveRemote, resolveEngineName, beq_iff_eq]

/-- C1 counterexample: on a remote-call timeout the effective KAGGLE_LIVE
worker sets the job to `error` with progress 0; it does not hand the job
back to the local executor (the job does not transition back to `running`),
so the claimed remote→local fallback does not happen. -/
theorem C1_counterexample :
    (runKaggle (some "https://colab.example") "job-1" ColabResult.timeout
       (job_init "job-1" "p" "TEXT" 10 none "KAGGLE_LIVE" 0)).status = "error" ∧
    (runKaggle (some "https://colab.example") "job-1" ColabResult.timeout
       (job_init "job-1" "p" "TEXT" 10 none "KAGGLE_LIVE" 0)).status ≠ "running" := by
  refine ⟨rfl, by decide⟩

/-- C1 amended: for every remote-engine job, a transport failure, a
timeout, or a response body that fails to parse as JSON is terminal: the
effective remote worker sets the job to `error` with progress 0 and never
re-routes it to the local executor (no fallback exists). -/
theorem C1_amended (base job_id : String) (r : JobRecord) (res : ColabResult)
    (hfail : res = ColabResult.timeout ∨ res = ColabResult.exn ∨
      ∃ c, res = ColabResult.response c none) :
    (runKaggle (some base) job_id res r).status = "error" ∧
    (runKaggle (some base) job_id res r).progress = 0 := by
  rcases hfail with h | h | ⟨c, h⟩ <;> subst h <;> exact ⟨rfl, rfl⟩

/-- C1 amended, witness: a non-JSON body (HTML error page) on a configured
base ends the job in `error` with progress 0. -/
theorem C1_amended_witness :
    (runKaggle (some "https://colab.example") "job-1" (ColabResult.response 502 none)
       (job_init "job-1" "p" "TEXT" 10 none "KAGGLE_LIVE" 0)).status = "error" ∧
    (runKaggle (some "https://colab.example") "job-1" (ColabResult.response 502 none)
       (job_init "job-1" "p" "TEXT" 10 none "KAGGLE_LIVE" 0)).progress = 0 :=
  C1_amended "https://colab.example" "job-1"
    (job_init "job-1" "p" "TEXT" 10 none "KAGGLE_LIVE" 0)
    (ColabResult.response 502 none) (Or.inr (Or.inr ⟨502, rfl⟩))

/-- C10 counterexample: on a non-200 response whose JSON body is ok-truthy,
the shadowed first definition of `generate_call_kaggle_live` ends the job in
`error` (progress 0) while the effective second definition — which never
reads the HTTP status code — ends it `done` (progress 100) with the remote
output URL; the two revisions are not behaviorally equivalent. -/
theorem C10_counterexample :
    (runKaggleFirst (some "https://colab.example") "job-1"
       (ColabResult.response 500 (some ⟨true, none, none⟩))
       (job_init "job-1" "p" "TEXT" 10 none "KAGGLE_LIVE" 0)).status = "error" ∧
    (runKaggleFirst (some "https://colab.example") "job-1"
       (ColabResult.response 500 (some ⟨true, none, none⟩))
       (job_init "job-1" "p" "TEXT" 10 none "KAGGLE_LIVE" 0)).progress = 0 ∧
    (runKaggle (some "https://colab.example") "job-1"
       (ColabResult.response 500 (some ⟨true, none, none⟩))
       (job_init "job-1" "p" "TEXT" 10 none "KAGGLE_LIVE" 0)).status = "done" ∧
    (runKaggle (some "https://colab.example") "job-1"
       (ColabResult.response 500 (some ⟨true, none, none⟩))
       (job_init "job-1" "p" "TEXT" 10 none "KAGGLE_LIVE" 0)).progress = 100 := by
  refine ⟨rfl, rfl, rfl, rfl⟩

/-- C10 amended: the two successive definitions of
`generate_call_kaggle_live` differ — the first rejects non-200 responses
and hardcodes status `done`, the second ignores the HTTP status code and
stores the body's own `status` field — but they produce the same final
status, progress, outputPath and outputUrl whenever every ok-truthy JSON
response arrives with HTTP status 200 and a `status` field that is absent
or `done`. -/
theorem C10_amended (base : Option String) (job_id : String) (res : ColabResult)
    (r : JobRecord) (h : remoteOkConsistent res) :
    (runKaggleFirst base job_id res r).status = (runKaggle base job_id res r).status ∧
    (runKaggleFirst base job_id res r).progress = (runKaggle base job_id res r).progress ∧
    (runKaggleFirst base job_id res r).outputPath = (runKaggle base job_id res r).outputPath ∧
    (runKaggleFirst base job_id res r).outputUrl = (runKaggle base job_id res r).outputUrl := by
  cases base with
  | none => cases res <;> exact ⟨rfl, rfl, rfl, rfl⟩
  | some b =>
    cases res with
    | timeout => exact ⟨rfl, rfl, rfl, rfl⟩
    | exn => exact ⟨rfl, rfl, rfl, rfl⟩
    | response code bodyOpt =>
      cases bodyOpt with
      | none =>
        simp [runKaggleFirst, runKaggle, generate_call_kaggle_live_first,
          generate_call_kaggle_live, applyUpds, applyUpd, errUpd]
      | some d =>
        cases hok : d.okTruthy with
        | false =>
          simp [runKaggleFirst, runKaggle, generate_call_kaggle_live_first,
            generate_call_kaggle_live, applyUpds, applyUpd, errUpd, hok]
        | true =>
          have hc := h hok
          rcases hc with ⟨hc200, hstat⟩
          subst hc200
          rcases hstat with hs | hs <;>
            simp [runKaggleFirst, runKaggle, generate_call_kaggle_live_first,
              generate_call_kaggle_live, applyUpds, applyUpd, hok, hs]

/-- C10 amended, witness: a 200 response with an ok-truthy body carrying
status `done` gives the same final record fields under both definitions. -/
theorem C10_amended_witness :
    (runKaggleFirst (some "https://colab.example") "job-1"
       (ColabResult.response 200 (some ⟨true, some "done", none⟩))
       (job_init "job-1" "p" "TEXT" 10 none "KAGGLE_LIVE" 0)).status =
      (runKaggle (some "https://colab.example") "job-1"
       (ColabResult.response 200 (some ⟨true, some "done", none⟩))
       (job_init "job-1" "p" "TEXT" 10 none "KAGGLE_LIVE" 0)).status ∧
    (runKaggleFirst (some "https://colab.example") "job-1"
       (ColabResult.response 200 (some ⟨true, some "done", none⟩))
       (job_init "job-1" "p" "TEXT" 10 none "KAGGLE_LIVE" 0)).progress =
      (runKaggle (some "https://colab.example") "job-1"
       (ColabResult.response 200 (some ⟨true, some "done", none⟩))
       (job_init "job-1" "p" "TEXT" 10 none "KAGGLE_LIVE" 0)).progress ∧
    (runKaggleFirst (some "https://colab.example") "job-1"
       (ColabResult.response 200 (some ⟨true, some "done", none⟩))
       (job_init "job-1" "p" "TEXT" 10 none "KAGGLE_LIVE" 0)).outputPath =
      (runKaggle (some "https://colab.example") "job-1"
       (ColabResult.response 200 (some ⟨true, some "done", none⟩))
       (job_init "job-1" "p" "TEXT" 10 none "KAGGLE_LIVE" 0)).outputPath ∧
    (runKaggleFirst (some "https://colab.example") "job-1"
       (ColabResult.response 200 (some ⟨true, some "done", none⟩))
       (job_init "job-1" "p" "TEXT" 10 none "KAGGLE_LIVE" 0)).outputUrl =
      (runKaggle (some "https://colab.example") "job-1"
       (ColabResult.response 200 (some ⟨true, some "done", none⟩))
       (job_init "job-1" "p" "TEXT" 10 none "KAGGLE_LIVE" 0)).outputUrl :=
  C10_amended (some "https://colab.example") "job-1"
    (ColabResult.response 200 (some ⟨true, some "done", none⟩))
    (job_init "job-1" "p" "TEXT" 10 none "KAGGLE_LIVE" 0)
    (fun _ => ⟨rfl, Or.inr rfl⟩)

/-- C5 counterexample: a remote response `ok: true, status: "banana"` is
stored verbatim by the effective KAGGLE_LIVE worker, so the job moves from
`running` to a status outside `queued | running | done | error` — the store
performs no validation of status values. -/
theorem C5_counterexample :
    statusTrace (job_init "job-1" "p" "TEXT" 10 none "KAGGLE_LIVE" 0)
      (generate_call_kaggle_live (some "https://colab.example") "job-1"
        (ColabResult.response 200 (some ⟨true, some "banana", none⟩))).1 =
      ["queued", "running", "banana"] ∧
    chainOk ["queued", "running", "banana"] = false ∧
    "banana" ∉ statusSet := by
  refine ⟨rfl, rfl, by decide⟩

/-- C5 amended: a job's status follows `queued → running → done | error`
for every local-worker run, and for every remote-worker run whose response
`status` field is absent or `done`; but `job_update` applies merges without
validation and the remote worker stores the response's own `status` string,
so a remote response carrying any other status value breaks both the
vocabulary and the transition discipline. -/
theorem C5_amended (parseOutput : String → Option (Option String))
    (fexists : String → Bool) (workdir job_id prompt mode : String)
    (duration : Int) (seed : Option String) (engine : String) (t : Nat)
    (base : Option String) (lres : LocalProcResult) (cres : ColabResult)
    (hben : remoteStatusBenign cres) :
    chainOk (statusTrace (job_init job_id prompt mode duration seed engine t)
      (generate_call_local parseOutput fexists workdir job_id lres).1) = true ∧
    chainOk (statusTrace (job_init job_id prompt mode duration seed engine t)
      (generate_call_kaggle_live base job_id cres).1) = true := by
  constructor
  · cases lres with
    | timedOut => rfl
    | exn => rfl
    | completed rc lines stderr =>
      by_cases hrc : rc = 0
      · subst hrc
        simp only [generate_call_local]
        cases hlast : lines.getLast? with
        | none => simp [hlast, job_init, statusTrace, statesOf, applyUpd, chainOk, allowedStep, errUpd]
        | some last =>
          cases hp : parseOutput last with
          | none => simp [hlast, hp, job_init, statusTrace, statesOf, applyUpd, chainOk, allowedStep, errUpd]
          | some po =>
            cases po with
            | none => simp [hlast, hp, job_init, statusTrace, statesOf, applyUpd, chainOk, allowedStep, errUpd]
            | some p =>
              by_cases hpe : p = ""
              · simp [hlast, hp, hpe, job_init, statusTrace, statesOf, applyUpd, chainOk, allowedStep, errUpd]
              · by_cases hex : fexists (resolvePath workdir p)
                <;> simp [hlast, hp, hpe, hex, job_init, statusTrace, statesOf, applyUpd, chainOk, allowedStep, errUpd]
      · simp [generate_call_local, hrc, job_init, statusTrace, statesOf, applyUpd, chainOk, allowedStep, errUpd]
  · cases base with
    | none => cases cres <;> rfl
    | some b =>
      cases cres with
      | timeout => rfl
      | exn => rfl
      | response code bodyOpt =>
        cases bodyOpt with
        | none => rfl
        | some d =>
          cases hok : d.okTruthy with
          | false =>
            simp [generate_call_kaggle_live, hok, job_init, statusTrace, statesOf, applyUpd,
              chainOk, allowedStep, errUpd]
          | true =>
            rcases hben with hs | hs <;>
              simp [generate_call_kaggle_live, hok, hs, job_init, statusTrace, statesOf,
                applyUpd, chainOk, allowedStep, errUpd]

/-- C5 amended, witness: a successful local run (file present) and a benign
remote response both yield the allowed transition chain. -/
theorem C5_amended_witness :
    chainOk (statusTrace (job_init "job-1" "p" "TEXT" 10 none "LOCAL" 0)
      (generate_call_local (fun _ => some (some "a.mp4")) (fun _ => true)
        "/work" "job-1" (LocalProcResult.completed 0 ["line"] "")).1) = true ∧
    chainOk (statusTrace (job_init "job-1" "p" "TEXT" 10 none "LOCAL" 0)
      (generate_call_kaggle_live (some "https://colab.example") "job-1"
        (ColabResult.response 200 (some ⟨true, none, none⟩))).1) = true :=
  C5_amended (fun _ => some (some "a.mp4")) (fun _ => true) "/work" "job-1" "p" "TEXT"
    10 none "LOCAL" 0 (some "https://colab.example")
    (LocalProcResult.completed 0 ["line"] "")
    (ColabResult.response 200 (some ⟨true, none, none⟩)) (Or.inl rfl)

/-- C4 counterexample: a remote response `ok: true, status: "error"` makes
the effective KAGGLE_LIVE worker store status `error` together with
progress 100 — the remote-supplied status string is written verbatim while
progress is unconditionally set to 100, violating `error ⇒ progress == 0`. -/
theorem C4_counterexample :
    (runKaggle (some "https://colab.example") "job-1"
       (ColabResult.response 200 (some ⟨true, some "error", none⟩))
       (job_init "job-1" "p" "TEXT" 10 none "KAGGLE_LIVE" 0)).status = "error" ∧
    (runKaggle (some "https://colab.example") "job-1"
       (ColabResult.response 200 (some ⟨true, some "error", none⟩))
       (job_init "job-1" "p" "TEXT" 10 none "KAGGLE_LIVE" 0)).progress = 100 ∧
    recordInvariant
      (runKaggle (some "https://colab.example") "job-1"
        (ColabResult.response 200 (some ⟨true, some "error", none⟩))
        (job_init "job-1" "p" "TEXT" 10 none "KAGGLE_LIVE" 0)) = false := by
  refine ⟨rfl, rfl, rfl⟩

/-- C4 amended: at every observable point of a job's lifecycle,
`done ⇒ progress 100 ∧ non-empty output location` and
`error ⇒ progress 0` hold for every local-worker run, and for every
remote-worker run whose response `status` field is absent or `done`; a
remote response supplying any other status string can violate the
invariant (status `error` with progress 100). -/
theorem C4_amended (parseOutput : String → Option (Option String))
    (fexists : String → Bool) (workdir job_id prompt mode : String)
    (duration : Int) (seed : Option String) (engine : String) (t : Nat)
    (base : Option String) (lres : LocalProcResult) (cres : ColabResult)
    (hben : remoteStatusBenign cres) :
    ((statesOf (job_init job_id prompt mode duration seed engine t)
       (generate_call_local parseOutput fexists workdir job_id lres).1).all
         recordInvariant = true) ∧
    ((statesOf (job_init job_id prompt mode duration seed engine t)
       (generate_call_kaggle_live base job_id cres).1).all
         recordInvariant = true) := by
  constructor
  · cases lres with
    | timedOut => rfl
    | exn => rfl
    | completed rc lines stderr =>
      by_cases hrc : rc = 0
      · subst hrc
        simp only [generate_call_local]
        cases hlast : lines.getLast? with
        | none =>
          simp [hlast, job_init, statesOf, applyUpd, recordInvariant,
            outputLocationNonempty, errUpd]
        | some last =>
          cases hp : parseOutput last with
          | none =>
            simp [hlast, hp, job_init, statesOf, applyUpd, recordInvariant,
              outputLocationNonempty, errUpd]
          | some po =>
            cases po with
            | none =>
              simp [hlast, hp, job_init, statesOf, applyUpd, recordInvariant,
                outputLocationNonempty, errUpd]
            | some p =>
              by_cases hpe : p = ""
              · simp [hlast, hp, hpe, job_init, statesOf, applyUpd, recordInvariant,
                  outputLocationNonempty, errUpd]
              · by_cases hex : fexists (resolvePath workdir p)
                · simp [hlast, hp, hpe, hex, job_init, statesOf, applyUpd,
                    recordInvariant, outputLocationNonempty, errUpd, bne_iff_ne]
                  exact Or.inr (append_ne_empty_left "/api/output/" job_id (by decide))
                · simp [hlast, hp, hpe, hex, job_init, statesOf, applyUpd,
                    recordInvariant, outputLocationNonempty, errUpd]
      · simp [generate_call_local, hrc, job_init, statesOf, applyUpd,
          recordInvariant, outputLocationNonempty, errUpd]
  · cases base with
    | none => cases cres <;> rfl
    | some b =>
      cases cres with
      | timeout => rfl
      | exn => rfl
      | response code bodyOpt =>
        cases bodyOpt with
        | none => rfl
        | some d =>
          cases hok : d.okTruthy with
          | false =>
            simp [generate_call_kaggle_live, hok, job_init, statesOf, applyUpd,
              recordInvariant, outputLocationNonempty, errUpd]
          | true =>
            rcases hben with hs | hs <;>
              simp [generate_call_kaggle_live, hok, hs, job_init, statesOf,
                applyUpd, recordInvariant, outputLocationNonempty, errUpd,
                bne_iff_ne] <;>
              exact append_append_ne_empty b "/api/output/" job_id (by decide)

/-- C4 amended, witness: the invariant holds along a successful local run
and along a benign remote run. -/
theorem C4_amended_witness :
    ((statesOf (job_init "job-2" "p" "TEXT" 10 none "LOCAL" 0)
       (generate_call_local (fun _ => some (some "b.mp4")) (fun _ => true)
         "/work" "job-2" (LocalProcResult.completed 0 ["out"] "")).1).all
         recordInvariant = true) ∧
    ((statesOf (job_init "job-2" "p" "TEXT" 10 none "LOCAL" 0)
       (generate_call_kaggle_live (some "https://colab.example") "job-2"
         (ColabResult.response 200 (some ⟨true, some "done", none⟩))).1).all
         recordInvariant = true) :=
  C4_amended (fun _ => some (some "b.mp4")) (fun _ => true) "/work" "job-2" "p" "TEXT"
    10 none "LOCAL" 0 (some "https://colab.example")
    (LocalProcResult.completed 0 ["out"] "")
    (ColabResult.response 200 (some ⟨true, some "done", none⟩)) (Or.inr rfl)

/-- C6: when the generator exits with status 0, the last stdout line is
parsed; a parse failure, an absent/empty `output` field, or a resolved path
(joined under the work directory when relative) that does not exist ends
the job in `error` with progress 0 and a log line naming the failed check,
while an existing path ends it in `done` with progress 100, `outputPath`
the resolved path, and `outputUrl` equal to `/api/output/<jobId>`. -/
theorem C6_local_result_protocol (parseOutput : String → Option (Option String))
    (fexists : String → Bool) (workdir job_id : String)
    (lines : List String) (stderr : String) (r : JobRecord) :
    (∀ last p, lines.getLast? = some last → parseOutput last = some (some p) → p ≠ "" →
      (fexists (resolvePath workdir p) = true →
        (runLocal parseOutput fexists workdir job_id (LocalProcResult.completed 0 lines stderr) r).status = "done" ∧
        (runLocal parseOutput fexists workdir job_id (LocalProcResult.completed 0 lines stderr) r).progress = 100 ∧
        (runLocal parseOutput fexists workdir job_id (LocalProcResult.completed 0 lines stderr) r).outputPath = some (resolvePath workdir p) ∧
        (runLocal parseOutput fexists workdir job_id (LocalProcResult.completed 0 lines stderr) r).outputUrl = some ("/api/output/" ++ job_id)) ∧
      (fexists (resolvePath workdir p) = false →
        (runLocal parseOutput fexists workdir job_id (LocalProcResult.completed 0 lines stderr) r).status = "error" ∧
        (runLocal parseOutput fexists workdir job_id (LocalProcResult.completed 0 lines stderr) r).progress = 0 ∧
        ("output file missing: " ++ resolvePath workdir p) ∈
          localLogs parseOutput fexists workdir job_id (LocalProcResult.completed 0 lines stderr))) ∧
    ((lines.getLast? = none ∨ (∃ last, lines.getLast? = some last ∧
        (parseOutput last = none ∨ parseOutput last = some none ∨
         parseOutput last = some (some "")))) →
      (runLocal parseOutput fexists workdir job_id (LocalProcResult.completed 0 lines stderr) r).status = "error" ∧
      (runLocal parseOutput fexists workdir job_id (LocalProcResult.completed 0 lines stderr) r).progress = 0 ∧
      "no output path returned by generator" ∈
        localLogs parseOutput fexists workdir job_id (LocalProcResult.completed 0 lines stderr)) := by
  constructor
  · intro last p hlast hp hpe
    constructor
    · intro hex
      simp [runLocal, generate_call_local, hlast, hp, hpe, hex, applyUpds, applyUpd]
    · intro hex
      refine ⟨?_, ?_, ?_⟩ <;>
        simp [runLocal, localLogs, generate_call_local, hlast, hp, hpe, hex,
          applyUpds, applyUpd, errUpd]
  · intro hfail
    rcases hfail with hlast | ⟨last, hlast, hp | hp | hp⟩
    · refine ⟨?_, ?_, ?_⟩ <;>
        simp [runLocal, localLogs, generate_call_local, hlast, applyUpds,
          applyUpd, errUpd]
    all_goals refine ⟨?_, ?_, ?_⟩ <;>
      simp [runLocal, localLogs, generate_call_local, hlast, hp, applyUpds,
        applyUpd, errUpd]

/-- C6 witness: a zero-exit run whose last line reports `a.mp4` with the
file present ends done with the derived URL, and the same run with the file
absent ends in error with the identifying log line. -/
theorem C6_local_result_protocol_witness :
    (runLocal (fun _ => some (some "a.mp4")) (fun _ => true) "/work" "job-3"
       (LocalProcResult.completed 0 ["log", "last"] "")
       (job_init "job-3" "p" "TEXT" 10 none "LOCAL" 0)).status = "done" ∧
    (runLocal (fun _ => some (some "a.mp4")) (fun _ => true) "/work" "job-3"
       (LocalProcResult.completed 0 ["log", "last"] "")
       (job_init "job-3" "p" "TEXT" 10 none "LOCAL" 0)).outputPath = some "/work/a.mp4" ∧
    (runLocal (fun _ => some (some "a.mp4")) (fun _ => true) "/work" "job-3"
       (LocalProcResult.completed 0 ["log", "last"] "")
       (job_init "job-3" "p" "TEXT" 10 none "LOCAL" 0)).outputUrl = some "/api/output/job-3" ∧
    (runLocal (fun _ => none) (fun _ => true) "/work" "job-3"
       (LocalProcResult.completed 0 ["oops"] "")
       (job_init "job-3" "p" "TEXT" 10 none "LOCAL" 0)).status = "error" := by
  have hgood := (C6_local_result_protocol (fun _ => some (some "a.mp4")) (fun _ => true)
    "/work" "job-3" ["log", "last"] ""
    (job_init "job-3" "p" "TEXT" 10 none "LOCAL" 0)).1 "last" "a.mp4" rfl rfl
    (by decide) |>.1 rfl
  have hbad := (C6_local_result_protocol (fun _ => none) (fun _ => true)
    "/work" "job-3" ["oops"] ""
    (job_init "job-3" "p" "TEXT" 10 none "LOCAL" 0)).2
    (Or.inr ⟨"oops", rfl, Or.inl rfl⟩)
  exact ⟨hgood.1, hgood.2.2.1, hgood.2.2.2, hbad.1⟩

/-- C8: for a job id not in the store, `job_update` and `job_log` leave the
store unchanged (silent no-ops) and the status query returns the
`jobId`/`notfound` shape with HTTP 404 instead of a record. -/
theorem C8_unknown_id_noop (s : Store) (id ts msg : String)
    (f : JobRecord → JobRecord) (h : storeGet s id = none) :
    job_update s id f = s ∧ job_log s id ts msg = s ∧
    api_job s id = ApiJobResponse.notfound id "notfound" 404 := by
  refine ⟨?_, ?_, ?_⟩ <;> simp [job_update, job_log, api_job, h]

/-- C8 witness: the empty store at id `job-x`. -/
theorem C8_unknown_id_noop_witness :
    job_update [] "job-x" (fun r => r) = [] ∧
    job_log [] "job-x" "12:00:00" "hello" = [] ∧
    api_job [] "job-x" = ApiJobResponse.notfound "job-x" "notfound" 404 :=
  C8_unknown_id_noop [] "job-x" "12:00:00" "hello" (fun r => r) rfl

/-- C9: the status query for a present job returns exactly the record
snapshot with the internal `outputPath` field removed: every other field is
preserved, and two records that differ only in `outputPath` produce the
same response — the local filesystem path never reaches the client. -/
theorem C9_output_path_never_exposed (r : JobRecord) (p : Option String)
    (s : Store) (id : String) (h : storeGet s id = some r) :
    api_job s id = ApiJobResponse.found (toStatusView r) 200 ∧
    toStatusView (setOutputPath r p) = toStatusView r ∧
    (toStatusView r).jobId = r.jobId ∧ (toStatusView r).prompt = r.prompt ∧
    (toStatusView r).mode = r.mode ∧ (toStatusView r).duration = r.duration ∧
    (toStatusView r).seedUrl = r.seedUrl ∧ (toStatusView r).engine = r.engine ∧
    (toStatusView r).status = r.status ∧ (toStatusView r).progress = r.progress ∧
    (toStatusView r).logs = r.logs ∧ (toStatusView r).outputUrl = r.outputUrl ∧
    (toStatusView r).createdAt = r.createdAt := by
  refine ⟨by simp [api_job, h], rfl, rfl, rfl, rfl, rfl, rfl, rfl, rfl, rfl, rfl, rfl, rfl⟩

/-- C9 witness: a one-record store; the response hides `outputPath`, and
changing that field to a secret path leaves the response identical. -/
theorem C9_output_path_never_exposed_witness :
    api_job [("job-9", job_init "job-9" "p" "TEXT" 10 none "LOCAL" 0)] "job-9" =
      ApiJobResponse.found (toStatusView (job_init "job-9" "p" "TEXT" 10 none "LOCAL" 0)) 200 ∧
    toStatusView (setOutputPath (job_init "job-9" "p" "TEXT" 10 none "LOCAL" 0)
        (some "/work/secret.mp4")) =
      toStatusView (job_init "job-9" "p" "TEXT" 10 none "LOCAL" 0) := by
  have h := C9_output_path_never_exposed (job_init "job-9" "p" "TEXT" 10 none "LOCAL" 0)
    (some "/work/secret.mp4") [("job-9", job_init "job-9" "p" "TEXT" 10 none "LOCAL" 0)]
    "job-9" rfl
  exact ⟨h.1, h.2.1⟩

/-- C3 amended, witness: the lower-case explicit value `kaggle_live` is
uppercased and resolves to the remote worker. -/
theorem C3_amended_witness :
    code_resolveRemote (some "Kaggle_Live") = true ↔
      pyUpper ((some "Kaggle_Live").getD "LOCAL") = "KAGGLE_LIVE" :=
  C3_amended.2.2.2 (some "Kaggle_Live")
